import Mathlib

/-!
Verification of the resilient network client of the journal web application.

The definitions below are a shallow embedding of the JavaScript source:
* `CircuitBreaker`, `RequestQueue.processQueue`, `checkConnection`,
  `isRetryableError` and `makeRequest` are translated from
  `journal_entry_component/src/services/authService.js`;
* `wsStep` is translated from the `WebSocketService` class
  (connection/reconnection handling);
* `validateStatus` is translated from `API_CONFIG.REQUEST_CONFIG` in
  `JournalEntryList.js` (`status >= 200 && status < 500`).

Machine time (`Date.now()`) is modelled as an `Int` supplied explicitly to
every operation that reads the clock.  Nondeterministic network behaviour
(the outcome observed by each fetch attempt) is modelled as an explicit
`AttemptOutcome` oracle.
-/

/-- The three circuit breaker states, the JS strings
`'CLOSED'`, `'OPEN'`, `'HALF_OPEN'`. -/
inductive CircuitState
  | closed
  | opened
  | halfOpen
deriving DecidableEq, Repr

/-- The fields of the JS `CircuitBreaker` class.  The constructor sets
`failureCount = 0`, `lastFailureTime = null`, `state = 'CLOSED'`,
`resetTimeout = 60000`, `failureThreshold = 5`. -/
structure CircuitBreaker where
  failureCount : Nat
  lastFailureTime : Option Int
  state : CircuitState
  resetTimeout : Int
  failureThreshold : Nat
deriving DecidableEq, Repr

/-- `new CircuitBreaker()`. -/
def CircuitBreaker.init : CircuitBreaker :=
  ⟨0, none, .closed, 60000, 5⟩

/-- `recordSuccess()`: `failureCount = 0; state = 'CLOSED'`.
`lastFailureTime` is left as is. -/
def CircuitBreaker.recordSuccess (cb : CircuitBreaker) : CircuitBreaker :=
  { cb with failureCount := 0, state := .closed }

/-- `recordFailure()`: increment `failureCount`, set `lastFailureTime` to the
current time, and if `failureCount >= failureThreshold` set the state to
`'OPEN'` (the source mutates first and then compares; the comparison is
written here on the incremented count). -/
def CircuitBreaker.recordFailure (cb : CircuitBreaker) (now : Int) : CircuitBreaker :=
  if cb.failureThreshold ≤ cb.failureCount + 1 then
    { cb with failureCount := cb.failureCount + 1, lastFailureTime := some now,
              state := .opened }
  else
    { cb with failureCount := cb.failureCount + 1, lastFailureTime := some now }

/-- `canRequest()`.  Returns the boolean verdict together with the (possibly
mutated) breaker: in the `'OPEN'` state, when
`Date.now() - lastFailureTime >= resetTimeout`, the method flips the state to
`'HALF_OPEN'` and returns `true`.  In JS `now - null` evaluates to `now`,
hence the `getD 0`. -/
def CircuitBreaker.canRequest (cb : CircuitBreaker) (now : Int) : Bool × CircuitBreaker :=
  match cb.state with
  | .closed => (true, cb)
  | .opened =>
    if cb.resetTimeout ≤ now - cb.lastFailureTime.getD 0 then
      (true, { cb with state := .halfOpen })
    else
      (false, cb)
  | .halfOpen => (true, cb)

/-- A sequence of `recordFailure()` calls, one per listed timestamp. -/
def recordFailures (cb : CircuitBreaker) (ts : List Int) : CircuitBreaker :=
  ts.foldl CircuitBreaker.recordFailure cb

/-- Does the list start with the given pattern of characters? -/
def startsWithChars : List Char → List Char → Bool
  | [], _ => true
  | _ :: _, [] => false
  | p :: ps, c :: cs => if p = c then startsWithChars ps cs else false

/-- Substring search over character lists (`String.prototype.includes`). -/
def hasSubChars (pat : List Char) : List Char → Bool
  | [] => pat.isEmpty
  | c :: cs => if startsWithChars pat (c :: cs) then true else hasSubChars pat cs

/-- `message.includes('timeout')`. -/
def containsTimeout (s : String) : Bool :=
  hasSubChars "timeout".data s.data

/-- `data.message || default`: a JS string is falsy exactly when empty. -/
def strOr (s d : String) : String :=
  if s = "" then d else s

/-- JS `parseInt(s, 10)`: skip leading whitespace, optional sign, then the
longest prefix of decimal digits; `NaN` (here `none`) when no digits. -/
def jsParseInt (s : String) : Option Int :=
  let cs := s.data.dropWhile fun c => c = ' ' ∨ c = '\t' ∨ c = '\n' ∨ c = '\r'
  let signAndRest : Int × List Char :=
    match cs with
    | '-' :: rest => (-1, rest)
    | '+' :: rest => (1, rest)
    | _ => (1, cs)
  let ds := signAndRest.2.takeWhile Char.isDigit
  if ds.isEmpty then none
  else
    some (signAndRest.1 * (ds.foldl (fun acc c => acc * 10 + (c.toNat - 48)) 0 : Nat))

/-- `checkConnection()`: reads `navigator.onLine` and the stored
`'lastSuccessfulRequest'` value.  Returns `false` when offline; `true` when
the stored value is absent (JS-falsy) or does not parse; otherwise `true`
exactly when the parsed timestamp is strictly newer than `now - 30000`. -/
def checkConnection (onLine : Bool) (lastRequest : Option String) (now : Int) : Bool :=
  if onLine = false then false
  else
    match lastRequest with
    | none => true
    | some s =>
      if s = "" then true
      else
        match jsParseInt s with
        | none => true
        | some t => if now - 30000 < t then true else false

/-- The JS classes a failure value can belong to inside `makeRequest`:
the four custom `Error` subclasses from `authService.js`, the plain
`Error` thrown for unexpected non-ok statuses, `TypeError` (thrown by
`fetch` on transport failure), and `SyntaxError` (the rejection of
`response.json()` on a body that is not valid JSON). -/
inductive ErrClass
  | networkError
  | serverError
  | validationError
  | authenticationError
  | genericError
  | typeErrorCls
  | syntaxErrorCls
deriving DecidableEq, Repr

/-- A JS error value: its class, its `message`, and the two context fields
the breaker-gate error carries (`circuitBreakerState`, `failureCount`). -/
structure JsError where
  cls : ErrClass
  message : String
  ctxCircuitState : Option CircuitState := none
  ctxFailureCount : Option Nat := none
deriving DecidableEq, Repr

/-- `new NetworkError(m)` with no breaker context. -/
def mkNetworkError (m : String) : JsError :=
  ⟨.networkError, m, none, none⟩

/-- The error synthesized by the breaker gate:
`new NetworkError('Service temporarily unavailable',
{ circuitBreakerState, failureCount })`. -/
def svcUnavailableError (cb : CircuitBreaker) : JsError :=
  ⟨.networkError, "Service temporarily unavailable", some cb.state, some cb.failureCount⟩

/-- `isRetryableError(error)`: `NetworkError`, `ServerError`, `TypeError`,
or any `Error` whose message includes `'timeout'`. -/
def isRetryableError (e : JsError) : Bool :=
  if e.cls = .networkError then true
  else if e.cls = .serverError then true
  else if e.cls = .typeErrorCls then true
  else containsTimeout e.message

/-- `API_CONFIG.REQUEST_CONFIG.validateStatus`:
`(status) => status >= 200 && status < 500`. -/
def validateStatus (status : Nat) : Bool :=
  decide (200 ≤ status) && decide (status < 500)

/-- What one fetch attempt (the `Promise.race` inside `makeRequest`)
observes: an HTTP response whose body parses (status and parsed body
message), an HTTP response whose body is not valid JSON (status and the
message of the `SyntaxError` that `response.json()` rejects with), an
`AbortError` rejection, a `TypeError` rejection, or the race's
connection-timeout rejection. -/
inductive AttemptOutcome
  | response (status : Nat) (msg : String)
  | responseBadJson (status : Nat) (m : String)
  | abortError
  | typeError (m : String)
  | connTimeout
deriving DecidableEq, Repr

/-- Result of the `try` block body for one attempt: either the parsed data
of a 2xx response, or the thrown error together with whether it is an
`AbortError` and whether the `'lastSuccessfulRequest'` store was updated
(the store is written as soon as a response arrives, before status
checking). -/
inductive TryOutcome
  | success (msg : String)
  | thrown (e : JsError) (isAbort : Bool) (storeUpd : Bool)
deriving DecidableEq, Repr

/-- The `try` block of `makeRequest` for one attempt, as a function of the
observed `AttemptOutcome`:
* `!validateStatus(status)` → `ServerError` (this check precedes
  `await response.json()`, so a body that would not parse is irrelevant
  for statuses outside 200–499);
* otherwise `const data = await response.json()` runs — on a body that is
  not valid JSON it rejects with a raw `SyntaxError`, which reaches the
  catch (the store was already updated on line 201);
* `response.ok` (2xx) → success;
* `400` → `ValidationError(data.message || 'Invalid request')`;
* `401/403` → `AuthenticationError(data.message || 'Authentication failed')`;
* any other non-ok status → plain `Error(data.message || 'Request failed')`;
* abort, `TypeError`, and the race's `NetworkError('Connection timeout')`
  rejections reach the catch with no store update. -/
def evalTry : AttemptOutcome → TryOutcome
  | .response status msg =>
    if validateStatus status = false then
      .thrown ⟨.serverError, "Server error occurred: " ++ toString status, none, none⟩
        false true
    else if 200 ≤ status ∧ status < 300 then
      .success msg
    else if status = 400 then
      .thrown ⟨.validationError, strOr msg "Invalid request", none, none⟩ false true
    else if status = 401 ∨ status = 403 then
      .thrown ⟨.authenticationError, strOr msg "Authentication failed", none, none⟩ false true
    else
      .thrown ⟨.genericError, strOr msg "Request failed", none, none⟩ false true
  | .responseBadJson status m =>
    if validateStatus status = false then
      .thrown ⟨.serverError, "Server error occurred: " ++ toString status, none, none⟩
        false true
    else
      .thrown ⟨.syntaxErrorCls, m, none, none⟩ false true
  | .abortError => .thrown ⟨.genericError, "aborted", none, none⟩ true false
  | .typeError m => .thrown ⟨.typeErrorCls, m, none, none⟩ false false
  | .connTimeout => .thrown ⟨.networkError, "Connection timeout", none, none⟩ false false

/-- One queued request, `{ execute: () => makeRequest(url, options, retries),
timestamp: Date.now() }`, identified by the retry budget it closes over and
its enqueue time. -/
structure QueuedReq where
  retries : Nat
  timestamp : Int
deriving DecidableEq, Repr

/-- The mutable state a `makeRequest` invocation touches: the shared
circuit breaker, the shared offline queue contents, the stored
`'lastSuccessfulRequest'` value, and a count of network (fetch) attempts
actually performed. -/
structure St where
  cb : CircuitBreaker
  queue : List QueuedReq
  lastSuccessfulRequest : Option String
  fetches : Nat
deriving DecidableEq, Repr

/-- Result of `makeRequest`: the resolved data or the thrown error. -/
inductive MkResult
  | ok (msg : String)
  | err (e : JsError)
deriving DecidableEq, Repr

/-- The tail of the catch block, after the `AbortError` check and the retry
branch: `TypeError` is converted to
`NetworkError('Unable to connect to the server')` with a recorded failure;
`ServerError`/`NetworkError` record a failure and are rethrown; everything
else is rethrown untouched. -/
def afterRetry (now : Int) (e : JsError) (st : St) : MkResult × St :=
  if e.cls = .typeErrorCls then
    (.err (mkNetworkError "Unable to connect to the server"),
     { st with cb := st.cb.recordFailure now })
  else if e.cls = .serverError ∨ e.cls = .networkError then
    (.err e, { st with cb := st.cb.recordFailure now })
  else
    (.err e, st)

/-- `makeRequest(url, options, retries)`.  The oracle `outc` gives the
network outcome of the attempt made with a given remaining retry budget
(budgets strictly decrease, so each attempt consults a fresh entry).
Order of operations, as in the source: breaker gate, connectivity check
(enqueue into the offline queue and throw `NetworkError` when offline),
fetch; on a response, store `'lastSuccessfulRequest'`, then status
checking; in the catch, `AbortError` → `NetworkError('Request timeout')`
plus a recorded failure, else retry when `isRetryableError` and budget
remains, else `afterRetry`. -/
def makeRequest (ol : Bool) (now : Int) (outc : Nat → AttemptOutcome) :
    Nat → St → MkResult × St
  | retries, st =>
    let gate := st.cb.canRequest now
    if gate.1 = false then
      (.err (svcUnavailableError gate.2), { st with cb := gate.2 })
    else
      let st1 := { st with cb := gate.2 }
      if checkConnection ol st1.lastSuccessfulRequest now = false then
        (.err (mkNetworkError "No internet connection available"),
         { st1 with queue := st1.queue ++ [⟨retries, now⟩] })
      else
        let st2 := { st1 with fetches := st1.fetches + 1 }
        match evalTry (outc retries) with
        | .success msg =>
          (.ok msg,
           { st2 with lastSuccessfulRequest := some (toString now),
                      cb := st2.cb.recordSuccess })
        | .thrown e isAbort storeUpd =>
          let st3 :=
            if storeUpd then { st2 with lastSuccessfulRequest := some (toString now) }
            else st2
          if isAbort then
            (.err (mkNetworkError "Request timeout"),
             { st3 with cb := st3.cb.recordFailure now })
          else if isRetryableError e then
            match retries with
            | r + 1 => makeRequest ol now outc r st3
            | 0 => afterRetry now e st3
          else
            afterRetry now e st3

/-- The spec's six-kind error taxonomy (§7). -/
inductive SpecErrorKind
  | network
  | server
  | validation
  | authentication
  | timeout
  | serviceUnavailable
deriving DecidableEq, Repr

/-- Modelled from the spec: the classification of a surfaced JS error into
the six-kind taxonomy of §7.  The custom subclasses map to their kinds; a
`NetworkError` is the `ServiceUnavailable` kind when it is the breaker-gate
error, the `Timeout` kind for the two timeout messages, and `Network`
otherwise.  A plain `Error`, a raw `TypeError`, and the raw `SyntaxError`
from `response.json()` belong to no kind. -/
def specKind (e : JsError) : Option SpecErrorKind :=
  match e.cls with
  | .validationError => some .validation
  | .authenticationError => some .authentication
  | .serverError => some .server
  | .networkError =>
    if e.message = "Service temporarily unavailable" then some .serviceUnavailable
    else if e.message = "Request timeout" ∨ e.message = "Connection timeout" then
      some .timeout
    else some .network
  | .genericError => none
  | .typeErrorCls => none
  | .syntaxErrorCls => none

/-- Initial state: fresh breaker, empty queue, nothing stored, no fetches. -/
def st0 : St := ⟨CircuitBreaker.init, [], none, 0⟩

/-- Outcome of `request.execute()` for one queued item: resolves, or
rejects with a retryable / non-retryable error (per `isRetryableError`). -/
inductive ExecOutcome
  | success
  | fail (retryable : Bool)
deriving DecidableEq, Repr

/-- One element of `RequestQueue.queue`, together with the environment it
will meet when it reaches the head of the drain loop: `online` is the
`checkConnection()` verdict at that moment and `outcome` the result of
`request.execute()`. -/
structure QItem where
  id : Nat
  online : Bool
  outcome : ExecOutcome
deriving DecidableEq, Repr

/-- The drain loop of `RequestQueue.processQueue()`:
`while (queue.length > 0) { head = queue[0]; if online: execute — success →
shift, caught non-retryable → shift, caught retryable → break; offline →
break }`.  Returns the items attempted, in order, and the final queue. -/
def processQueue : List QItem → List QItem × List QItem
  | [] => ([], [])
  | r :: rest =>
    if r.online then
      match r.outcome with
      | .success =>
        let p := processQueue rest
        (r :: p.1, p.2)
      | .fail rb =>
        if rb then ([r], r :: rest)
        else
          let p := processQueue rest
          (r :: p.1, p.2)
    else ([], r :: rest)

/-- The fields of the JS `WebSocketService` class, plus two bookkeeping
bits of the socket environment: `socketAlive` (a socket exists whose
handlers can still fire) and `pendingReconnect` (a reconnection
`setTimeout` is outstanding).  Callbacks are identified by numbers. -/
structure WSState where
  isConnected : Bool
  reconnectAttempts : Nat
  maxReconnectAttempts : Nat
  baseReconnectDelay : Nat
  messageCallbacks : List Nat
  statusCallbacks : List Nat
  pendingReconnect : Bool
  socketAlive : Bool
deriving DecidableEq, Repr

/-- Externally visible actions of one `WebSocketService` step. -/
inductive WSOutput
  | statusNotify (connected : Bool) (subscribers : List Nat)
  | scheduleReconnect (delay : Nat)
  | closeSocket
deriving DecidableEq, Repr

/-- The events driving the service: the socket's `open`/`close`/`error`
handlers, the firing of a scheduled reconnection timer
(`reconnectAttempts++; connect()`), and an explicit `disconnect()` call. -/
inductive WSEvent
  | openE
  | closeE
  | errorE
  | fireE
  | disconnectE
deriving DecidableEq, Repr

/-- `handleReconnection()`: when `reconnectAttempts < maxReconnectAttempts`,
schedule a reconnection after `baseReconnectDelay * 2^reconnectAttempts`
(the counter is incremented later, when the timer fires); otherwise emit
one more `false` status notification and schedule nothing. -/
def handleReconnection (s : WSState) : WSState × List WSOutput :=
  if s.reconnectAttempts < s.maxReconnectAttempts then
    ({ s with pendingReconnect := true },
     [.scheduleReconnect (s.baseReconnectDelay * 2 ^ s.reconnectAttempts)])
  else
    (s, [.statusNotify false s.statusCallbacks])

/-- One step of the `WebSocketService`.  Handler events on a dead socket,
and timer events with no outstanding timer, do nothing.
* `onopen`: `isConnected = true; reconnectAttempts = 0;` notify `true`.
* `onclose`: `isConnected = false;` notify `false`; `handleReconnection()`.
* `onerror`: notify `false` only — `isConnected` is left untouched and no
  reconnection is scheduled.
* timer fire: `reconnectAttempts++; connect()` (a fresh socket exists).
* `disconnect()`: `ws.close()`, `isConnected = false`, clear both callback
  registries; no flag is set, so the later `close` event is handled
  normally. -/
def wsStep (s : WSState) : WSEvent → WSState × List WSOutput
  | .openE =>
    if s.socketAlive then
      ({ s with isConnected := true, reconnectAttempts := 0 },
       [.statusNotify true s.statusCallbacks])
    else (s, [])
  | .closeE =>
    if s.socketAlive then
      let s1 := { s with isConnected := false, socketAlive := false }
      let p := handleReconnection s1
      (p.1, .statusNotify false s1.statusCallbacks :: p.2)
    else (s, [])
  | .errorE =>
    if s.socketAlive then (s, [.statusNotify false s.statusCallbacks])
    else (s, [])
  | .fireE =>
    if s.pendingReconnect then
      ({ s with pendingReconnect := false,
                reconnectAttempts := s.reconnectAttempts + 1,
                socketAlive := true }, [])
    else (s, [])
  | .disconnectE =>
    ({ s with isConnected := false, messageCallbacks := [], statusCallbacks := [] },
     if s.socketAlive then [.closeSocket] else [])

/-- Run a sequence of events, collecting all outputs. -/
def wsRun (s : WSState) : List WSEvent → WSState × List WSOutput
  | [] => (s, [])
  | e :: es =>
    let p := wsStep s e
    let q := wsRun p.1 es
    (q.1, p.2 ++ q.2)

/-- Number of reconnections scheduled in an output list. -/
def countSched : List WSOutput → Nat
  | [] => 0
  | .scheduleReconnect _ :: rest => countSched rest + 1
  | _ :: rest => countSched rest

/-- A freshly constructed and successfully connected service with
subscribers `[1]` (message) and `[2]` (status): `maxReconnectAttempts = 5`,
`baseReconnectDelay = 1000`. -/
def wsConnected : WSState :=
  ⟨true, 0, 5, 1000, [1], [2], false, true⟩

/-- A breaker that has just tripped: five recorded failures, the last at
time 0, in the `'OPEN'` state with the default configuration. -/
def cbOpen5 : CircuitBreaker := ⟨5, some 0, .opened, 60000, 5⟩

/-- The raw generic `Error` thrown for an unexpected non-ok status with an
empty body message: `new Error('Request failed')`. -/
def rawRequestFailed : JsError := ⟨.genericError, "Request failed", none, none⟩

/-- The reachable-state invariant of the reconnection bookkeeping: the
attempt counter never exceeds the maximum, an outstanding reconnection
timer implies the counter is still below the maximum, and an outstanding
timer implies the old socket is gone. -/
def wsInv (s : WSState) : Prop :=
  s.reconnectAttempts ≤ s.maxReconnectAttempts
  ∧ (s.pendingReconnect = true → s.reconnectAttempts < s.maxReconnectAttempts)
  ∧ (s.pendingReconnect = true → s.socketAlive = false)

/-- Attempt counter plus one for an outstanding timer. -/
def fMeasure (s : WSState) : Nat :=
  s.reconnectAttempts + (if s.pendingReconnect then 1 else 0)

example : containsTimeout "Request timeout" = true := by decide
example : containsTimeout "Invalid request" = false := by decide
example : jsParseInt "12345" = some 12345 := by decide
example : jsParseInt "  -42abc" = some (-42) := by decide
example : jsParseInt "abc" = none := by decide
example : jsParseInt "" = none := by decide
example : checkConnection true (some "100") 40000 = false := by decide
example : checkConnection true (some "100") 30000 = true := by decide
example :
    makeRequest true 0 (fun _ => .response 200 "hi") 3 st0
      = (.ok "hi", ⟨CircuitBreaker.init, [], some "0", 1⟩) := by decide
example :
    (makeRequest true 0 (fun _ => .response 404 "") 3 st0).1
      = .err ⟨.genericError, "Request failed", none, none⟩ := by decide
example :
    (makeRequest true 0 (fun _ => .response 400 "timeout") 1 st0).2.fetches = 2 := by
  decide
example :
    (makeRequest true 0 (fun _ => .responseBadJson 200 "Unexpected end of JSON input")
        3 st0).1
      = .err ⟨.syntaxErrorCls, "Unexpected end of JSON input", none, none⟩ := by decide
example :
    (makeRequest true 0 (fun _ => .responseBadJson 503 "x") 0 st0).1
      = .err ⟨.serverError, "Server error occurred: 503", none, none⟩ := by decide
example :
    processQueue [⟨0, true, .success⟩, ⟨1, true, .success⟩, ⟨2, true, .success⟩]
      = ([⟨0, true, .success⟩, ⟨1, true, .success⟩, ⟨2, true, .success⟩], []) := by decide
example :
    processQueue [⟨0, true, .fail true⟩, ⟨1, true, .success⟩]
      = ([⟨0, true, .fail true⟩], [⟨0, true, .fail true⟩, ⟨1, true, .success⟩]) := by decide
example :
    wsStep wsConnected .errorE = (wsConnected, [.statusNotify false [2]]) := by decide
example :
    (wsStep (wsStep wsConnected .disconnectE).1 .closeE).2
      = [.statusNotify false [], .scheduleReconnect 1000] := by decide

theorem canRequest_open_notElapsed (cb : CircuitBreaker) (now : Int)
    (h : cb.state = .opened)
    (hlt : now - cb.lastFailureTime.getD 0 < cb.resetTimeout) :
    cb.canRequest now = (false, cb) := by
  simp only [CircuitBreaker.canRequest, h]
  split
  · exfalso
    omega
  · rfl

theorem canRequest_false_inv (cb : CircuitBreaker) (now : Int)
    (h : (cb.canRequest now).1 = false) :
    (cb.canRequest now).2 = cb ∧ cb.state = .opened := by
  cases hs : cb.state with
  | closed => simp [CircuitBreaker.canRequest, hs] at h
  | halfOpen => simp [CircuitBreaker.canRequest, hs] at h
  | opened =>
    refine ⟨?_, rfl⟩
    by_cases hc : cb.resetTimeout ≤ now - cb.lastFailureTime.getD 0
    · simp [CircuitBreaker.canRequest, hs, hc] at h
    · simp [CircuitBreaker.canRequest, hs, hc]

theorem makeRequest_gate (ol : Bool) (now : Int) (outc : Nat → AttemptOutcome)
    (retries : Nat) (st : St) (h : (st.cb.canRequest now).1 = false) :
    makeRequest ol now outc retries st = (.err (svcUnavailableError st.cb), st) := by
  have h2 := canRequest_false_inv st.cb now h
  unfold makeRequest
  rw [if_pos h, h2.1]

/-- Claim C1 (amended): while a breaker is `Open`, every `canRequest()`
before `resetTimeout` has elapsed since `lastFailureTime` returns `false`
and leaves the breaker untouched; once at least `resetTimeout` has
elapsed, `canRequest()` moves the breaker to `HalfOpen` and returns
`true`, and every further `canRequest()` with no intervening
`recordSuccess`/`recordFailure` also returns `true` — the code does not
limit `HalfOpen` to a single probe. -/
theorem canRequest_open_probes (cb : CircuitBreaker) (now now2 : Int)
    (h : cb.state = .opened) :
    (now - cb.lastFailureTime.getD 0 < cb.resetTimeout →
      cb.canRequest now = (false, cb))
    ∧ (cb.resetTimeout ≤ now - cb.lastFailureTime.getD 0 →
      (cb.canRequest now).1 = true
      ∧ (cb.canRequest now).2.state = .halfOpen
      ∧ ((cb.canRequest now).2.canRequest now2).1 = true
      ∧ ((cb.canRequest now).2.canRequest now2).2 = (cb.canRequest now).2) := by
  constructor
  · intro h1
    exact canRequest_open_notElapsed cb now h h1
  · intro h1
    unfold CircuitBreaker.canRequest
    simp [h, if_pos h1]

/-- Claim C1, counterexample to the claim as stated: after `resetTimeout`
has elapsed, two consecutive `canRequest()` calls with no intervening
`recordSuccess`/`recordFailure` both grant an attempt. -/
theorem canRequest_double_probe_cex :
    (cbOpen5.canRequest 60000).1 = true
    ∧ ((cbOpen5.canRequest 60000).2.canRequest 60000).1 = true := by decide

/-- Claim C1, witness. -/
theorem canRequest_open_probes_witness :
    ((cbOpen5.canRequest 60000).2.canRequest 60000).1 = true :=
  ((canRequest_open_probes cbOpen5 60000 60000 rfl).2 (by decide)).2.2.1

/-- Claim C2: whenever `canRequest()` returns `false`, `makeRequest` fails
immediately with the locally synthesized breaker-gate error (the spec's
`ServiceUnavailable` kind) carrying the current breaker state and failure
count, and the whole state — breaker, offline queue, stored timestamp and
fetch count — is unchanged: no retry is consumed and no network attempt is
performed. -/
theorem makeRequest_serviceUnavailable (ol : Bool) (now : Int)
    (outc : Nat → AttemptOutcome) (retries : Nat) (st : St)
    (h : (st.cb.canRequest now).1 = false) :
    makeRequest ol now outc retries st = (.err (svcUnavailableError st.cb), st)
    ∧ (svcUnavailableError st.cb).ctxCircuitState = some st.cb.state
    ∧ (svcUnavailableError st.cb).ctxFailureCount = some st.cb.failureCount
    ∧ specKind (svcUnavailableError st.cb) = some .serviceUnavailable :=
  ⟨makeRequest_gate ol now outc retries st h, rfl, rfl, rfl⟩

/-- Claim C2, witness. -/
theorem makeRequest_serviceUnavailable_witness :
    makeRequest true 30000 (fun _ => .response 200 "") 3 ⟨cbOpen5, [], none, 0⟩
      = (.err (svcUnavailableError cbOpen5), ⟨cbOpen5, [], none, 0⟩) :=
  (makeRequest_serviceUnavailable true 30000 (fun _ => .response 200 "") 3
    ⟨cbOpen5, [], none, 0⟩ (by decide)).1

theorem recordFailure_count (cb : CircuitBreaker) (now : Int) :
    (cb.recordFailure now).failureCount = cb.failureCount + 1
    ∧ (cb.recordFailure now).failureThreshold = cb.failureThreshold
    ∧ (cb.recordFailure now).resetTimeout = cb.resetTimeout := by
  unfold CircuitBreaker.recordFailure
  split <;> simp

theorem recordFailure_opened (cb : CircuitBreaker) (now : Int)
    (h : cb.failureThreshold ≤ cb.failureCount + 1) :
    (cb.recordFailure now).state = .opened := by
  unfold CircuitBreaker.recordFailure
  rw [if_pos h]

theorem recordFailures_opened (ts : List Int) :
    ∀ cb : CircuitBreaker, cb.failureThreshold ≤ cb.failureCount + ts.length →
      (ts = [] → cb.state = .opened) → (recordFailures cb ts).state = .opened := by
  induction ts with
  | nil =>
    intro cb _ h2
    exact h2 rfl
  | cons t rest ih =>
    intro cb h1 _
    show (recordFailures (cb.recordFailure t) rest).state = .opened
    apply ih
    · have hc := recordFailure_count cb t
      rw [hc.1, hc.2.1]
      simp at h1
      omega
    · intro hrest
      apply recordFailure_opened
      subst hrest
      simpa using h1

/-- Claim C3: from `Closed` with `failureCount = 0`, after `T` consecutive
`recordFailure()` calls (with `T` the configured threshold, `T ≥ 1`) the
breaker is `Open`; a `canRequest()` before `resetTimeout` has elapsed
since the last failure returns `false`, and any `makeRequest` issued then
fails with the breaker-gate error leaving the state — including the fetch
count — untouched, so no network attempt is made. -/
theorem breaker_opens_after_threshold (cb0 : CircuitBreaker) (ts : List Int)
    (now : Int) (hstate : cb0.state = .closed) (hcount : cb0.failureCount = 0)
    (hpos : 1 ≤ cb0.failureThreshold) (hlen : ts.length = cb0.failureThreshold)
    (hnow : now - (recordFailures cb0 ts).lastFailureTime.getD 0
      < (recordFailures cb0 ts).resetTimeout) :
    (recordFailures cb0 ts).state = .opened
    ∧ ((recordFailures cb0 ts).canRequest now).1 = false
    ∧ ∀ (ol : Bool) (outc : Nat → AttemptOutcome) (retries : Nat)
        (queue : List QueuedReq) (lsr : Option String) (fetches : Nat),
        makeRequest ol now outc retries ⟨recordFailures cb0 ts, queue, lsr, fetches⟩
          = (.err (svcUnavailableError (recordFailures cb0 ts)),
             ⟨recordFailures cb0 ts, queue, lsr, fetches⟩) := by
  have hopen : (recordFailures cb0 ts).state = .opened := by
    apply recordFailures_opened
    · omega
    · intro hnil
      rw [hnil] at hlen
      simp at hlen
      omega
  have hcan : ((recordFailures cb0 ts).canRequest now).1 = false := by
    rw [canRequest_open_notElapsed _ now hopen hnow]
  exact ⟨hopen, hcan, fun ol outc retries queue lsr fetches =>
    makeRequest_gate ol now outc retries ⟨recordFailures cb0 ts, queue, lsr, fetches⟩ hcan⟩

theorem canRequest_snd_count (cb : CircuitBreaker) (now : Int) :
    ((cb.canRequest now).2).failureCount = cb.failureCount := by
  cases hs : cb.state with
  | closed => simp only [CircuitBreaker.canRequest, hs]
  | halfOpen => simp only [CircuitBreaker.canRequest, hs]
  | opened =>
    simp only [CircuitBreaker.canRequest, hs]
    split <;> rfl

theorem makeRequest_offline (ol : Bool) (now : Int) (outc : Nat → AttemptOutcome)
    (retries : Nat) (st : St)
    (hgate : (st.cb.canRequest now).1 = true)
    (hconn : checkConnection ol st.lastSuccessfulRequest now = false) :
    makeRequest ol now outc retries st
      = (.err (mkNetworkError "No internet connection available"),
         { st with cb := (st.cb.canRequest now).2,
                   queue := st.queue ++ [⟨retries, now⟩] }) := by
  unfold makeRequest
  rw [if_neg (by simp [hgate])]
  simp [hconn]

theorem specKind_isSome (e : JsError)
    (h1 : e.cls ≠ .genericError) (h2 : e.cls ≠ .typeErrorCls)
    (h3 : e.cls ≠ .syntaxErrorCls) :
    ∃ k, specKind e = some k := by
  cases hc : e.cls with
  | networkError =>
    simp only [specKind, hc]
    split
    · exact ⟨_, rfl⟩
    · split
      · exact ⟨_, rfl⟩
      · exact ⟨_, rfl⟩
  | serverError => exact ⟨.server, by simp [specKind, hc]⟩
  | validationError => exact ⟨.validation, by simp [specKind, hc]⟩
  | authenticationError => exact ⟨.authentication, by simp [specKind, hc]⟩
  | genericError => exact absurd hc h1
  | typeErrorCls => exact absurd hc h2
  | syntaxErrorCls => exact absurd hc h3

theorem afterRetry_classified (now : Int) (e : JsError) (st : St) (e2 : JsError)
    (h : (afterRetry now e st).1 = .err e2) :
    (∃ k, specKind e2 = some k) ∨ e2.cls = .genericError ∨ e2.cls = .syntaxErrorCls := by
  unfold afterRetry at h
  split at h
  · simp at h
    subst h
    exact .inl ⟨.network, by decide⟩
  · split at h
    · rename_i hcls
      simp at h
      subst h
      exact .inl (specKind_isSome e (by rcases hcls with h | h <;> simp [h])
        (by rcases hcls with h | h <;> simp [h]) (by rcases hcls with h | h <;> simp [h]))
    · rename_i hty hsn
      simp at h
      subst h
      by_cases hg : e.cls = .genericError
      · exact .inr (.inl hg)
      · by_cases hx : e.cls = .syntaxErrorCls
        · exact .inr (.inr hx)
        · exact .inl (specKind_isSome e hg hty hx)

/-- Claim C3, witness: the default threshold 5, failures at times
0, 10, 20, 30, 40, probed at time 50000. -/
theorem breaker_opens_after_threshold_witness :
    makeRequest true 50000 (fun _ => .response 200 "") 3
        ⟨recordFailures CircuitBreaker.init [0, 10, 20, 30, 40], [], none, 0⟩
      = (.err (svcUnavailableError (recordFailures CircuitBreaker.init [0, 10, 20, 30, 40])),
         ⟨recordFailures CircuitBreaker.init [0, 10, 20, 30, 40], [], none, 0⟩) :=
  (breaker_opens_after_threshold CircuitBreaker.init [0, 10, 20, 30, 40] 50000
    rfl rfl (by decide) (by decide) (by decide)).2.2 true (fun _ => .response 200 "") 3 [] none 0

theorem makeRequest_attempt (ol : Bool) (now : Int) (outc : Nat → AttemptOutcome)
    (retries : Nat) (st : St)
    (hg : (st.cb.canRequest now).1 = true)
    (hc : checkConnection ol st.lastSuccessfulRequest now = true) :
    makeRequest ol now outc retries st =
      (match evalTry (outc retries) with
       | .success msg =>
         (.ok msg, { st with cb := ((st.cb.canRequest now).2).recordSuccess,
                             lastSuccessfulRequest := some (toString now),
                             fetches := st.fetches + 1 })
       | .thrown e isAbort storeUpd =>
         let st3 : St :=
           if storeUpd then
             { st with cb := (st.cb.canRequest now).2,
                       lastSuccessfulRequest := some (toString now),
                       fetches := st.fetches + 1 }
           else
             { st with cb := (st.cb.canRequest now).2, fetches := st.fetches + 1 }
         if isAbort then
           (.err (mkNetworkError "Request timeout"),
            { st3 with cb := st3.cb.recordFailure now })
         else if isRetryableError e then
           match retries with
           | r + 1 => makeRequest ol now outc r st3
           | 0 => afterRetry now e st3
         else afterRetry now e st3) := by
  conv_lhs => unfold makeRequest
  rw [if_neg (by simp [hg]), if_neg (by simp [hc])]

/-- Claim C5 (amended): every failure outcome of `makeRequest` either
resolves to one of the six spec error kinds (Network, Server, Validation,
Authentication, Timeout, ServiceUnavailable) — in particular no raw
`TypeError` or `AbortError` ever escapes — or is one of two raw escapes:
the plain `Error` thrown for a non-ok response status other than
400/401/403 (e.g. 404), or the `SyntaxError` with which
`response.json()` rejects when a 200–499 response carries a body that is
not valid JSON; both escape to the caller unclassified. -/
theorem makeRequest_err_classified :
    ∀ (retries : Nat) (ol : Bool) (now : Int) (outc : Nat → AttemptOutcome)
      (st : St) (e : JsError),
      (makeRequest ol now outc retries st).1 = .err e →
      (∃ k, specKind e = some k) ∨ e.cls = .genericError
        ∨ e.cls = .syntaxErrorCls := by
  intro retries
  induction retries with
  | zero =>
    intro ol now outc st e h
    by_cases hgate : (st.cb.canRequest now).1 = false
    · rw [makeRequest_gate ol now outc 0 st hgate] at h
      simp at h
      subst h
      exact .inl ⟨.serviceUnavailable, by simp [specKind, svcUnavailableError]⟩
    · have hg : (st.cb.canRequest now).1 = true := by
        revert hgate
        cases (st.cb.canRequest now).1 <;> simp
      by_cases hconn : checkConnection ol st.lastSuccessfulRequest now = false
      · rw [makeRequest_offline ol now outc 0 st hg hconn] at h
        simp at h
        subst h
        exact .inl ⟨.network, by decide⟩
      · have hc : checkConnection ol st.lastSuccessfulRequest now = true := by
          revert hconn
          cases checkConnection ol st.lastSuccessfulRequest now <;> simp
        rw [makeRequest_attempt ol now outc 0 st hg hc] at h
        cases hev : evalTry (outc 0) with
        | success msg =>
          rw [hev] at h
          simp at h
        | thrown e2 isAbort storeUpd =>
          rw [hev] at h
          cases isAbort with
          | true =>
            simp at h
            subst h
            exact .inl ⟨.timeout, by decide⟩
          | false =>
            by_cases hre : isRetryableError e2 = true
            · simp only [hre] at h
              simp at h
              exact afterRetry_classified _ _ _ _ h
            · simp only [Bool.not_eq_true] at hre
              simp [hre] at h
              exact afterRetry_classified _ _ _ _ h
  | succ r ih =>
    intro ol now outc st e h
    by_cases hgate : (st.cb.canRequest now).1 = false
    · rw [makeRequest_gate ol now outc (r + 1) st hgate] at h
      simp at h
      subst h
      exact .inl ⟨.serviceUnavailable, by simp [specKind, svcUnavailableError]⟩
    · have hg : (st.cb.canRequest now).1 = true := by
        revert hgate
        cases (st.cb.canRequest now).1 <;> simp
      by_cases hconn : checkConnection ol st.lastSuccessfulRequest now = false
      · rw [makeRequest_offline ol now outc (r + 1) st hg hconn] at h
        simp at h
        subst h
        exact .inl ⟨.network, by decide⟩
      · have hc : checkConnection ol st.lastSuccessfulRequest now = true := by
          revert hconn
          cases checkConnection ol st.lastSuccessfulRequest now <;> simp
        rw [makeRequest_attempt ol now outc (r + 1) st hg hc] at h
        cases hev : evalTry (outc (r + 1)) with
        | success msg =>
          rw [hev] at h
          simp at h
        | thrown e2 isAbort storeUpd =>
          rw [hev] at h
          cases isAbort with
          | true =>
            simp at h
            subst h
            exact .inl ⟨.timeout, by decide⟩
          | false =>
            by_cases hre : isRetryableError e2 = true
            · simp only [hre] at h
              simp at h
              exact ih ol now outc _ e h
            · simp only [Bool.not_eq_true] at hre
              simp [hre] at h
              exact afterRetry_classified _ _ _ _ h

/-- Claim C5, counterexample to the claim as stated: a 404 response makes
`makeRequest` throw a raw generic `Error('Request failed')`, and a 200
response with a body that is not valid JSON makes it throw the raw
`SyntaxError` from `response.json()`; both belong to none of the six
kinds. -/
theorem makeRequest_unclassified_404_cex :
    ((makeRequest true 0 (fun _ => .response 404 "") 3 st0).1 = .err rawRequestFailed
      ∧ specKind rawRequestFailed = none)
    ∧ ((makeRequest true 0
          (fun _ => .responseBadJson 200 "Unexpected end of JSON input") 3 st0).1
        = .err ⟨.syntaxErrorCls, "Unexpected end of JSON input", none, none⟩
      ∧ specKind ⟨.syntaxErrorCls, "Unexpected end of JSON input", none, none⟩
          = none) := by decide

/-- Claim C5, witness. -/
theorem makeRequest_err_classified_witness :
    (∃ k, specKind (svcUnavailableError cbOpen5) = some k)
    ∨ (svcUnavailableError cbOpen5).cls = .genericError
    ∨ (svcUnavailableError cbOpen5).cls = .syntaxErrorCls :=
  makeRequest_err_classified 3 true 30000 (fun _ => .response 200 "")
    ⟨cbOpen5, [], none, 0⟩ (svcUnavailableError cbOpen5) (by decide)

/-- Claim C6 (amended): a call whose HTTP response has status 400 and whose
resulting validation message (the body message, defaulting to
`'Invalid request'`) does not contain the substring `'timeout'` fails
immediately with a `Validation` error after exactly one network attempt —
zero retries consumed — and the breaker's `failureCount` is unchanged.
(When the body message does contain `'timeout'`, `isRetryableError` deems
the `ValidationError` retryable and the call is retried, see the
counterexample.) -/
theorem makeRequest_validation_400 (ol : Bool) (now : Int)
    (outc : Nat → AttemptOutcome) (retries : Nat) (st : St) (msg : String)
    (hout : outc retries = .response 400 msg)
    (hgate : (st.cb.canRequest now).1 = true)
    (hconn : checkConnection ol st.lastSuccessfulRequest now = true)
    (hmsg : containsTimeout (strOr msg "Invalid request") = false) :
    makeRequest ol now outc retries st
      = (.err ⟨.validationError, strOr msg "Invalid request", none, none⟩,
         { st with cb := (st.cb.canRequest now).2,
                   lastSuccessfulRequest := some (toString now),
                   fetches := st.fetches + 1 })
    ∧ ((st.cb.canRequest now).2).failureCount = st.cb.failureCount
    ∧ specKind ⟨.validationError, strOr msg "Invalid request", none, none⟩
        = some .validation := by
  refine ⟨?_, canRequest_snd_count st.cb now, rfl⟩
  unfold makeRequest
  rw [if_neg (by simp [hgate])]
  simp [hout, hconn, evalTry, validateStatus, isRetryableError, hmsg, afterRetry]

/-- Claim C6, counterexample to the claim as stated: a 400 response whose
body message is `'timeout'` yields a `ValidationError` that
`isRetryableError` deems retryable, so the call performs a second network
attempt (2 fetches with retry budget 1) before failing. -/
theorem makeRequest_validation_timeout_cex :
    (makeRequest true 0 (fun _ => .response 400 "timeout") 1 st0).2.fetches = 2
    ∧ (makeRequest true 0 (fun _ => .response 400 "timeout") 1 st0).1
        = .err ⟨.validationError, "timeout", none, none⟩ := by decide

/-- Claim C6, witness. -/
theorem makeRequest_validation_400_witness :
    makeRequest true 0 (fun _ => .response 400 "bad data") 3 st0
      = (.err ⟨.validationError, "bad data", none, none⟩,
         ⟨CircuitBreaker.init, [], some "0", 1⟩) := by
  have h := (makeRequest_validation_400 true 0 (fun _ => .response 400 "bad data")
    3 st0 "bad data" rfl (by decide) (by decide) (by decide)).1
  simpa using h

/-- Claim C7: when the breaker gate passes but `checkConnection()` reports
no connectivity, `makeRequest` appends a copy of the call to the offline
queue, fails the invocation with the `Network` error
`'No internet connection available'`, and performs no network attempt (the
fetch count is unchanged and the result does not depend on the network
oracle at all — in particular the returned result is this error, never the
queued copy's later outcome). -/
theorem makeRequest_offline_enqueue (ol : Bool) (now : Int)
    (outc : Nat → AttemptOutcome) (retries : Nat) (st : St)
    (hgate : (st.cb.canRequest now).1 = true)
    (hconn : checkConnection ol st.lastSuccessfulRequest now = false) :
    makeRequest ol now outc retries st
      = (.err (mkNetworkError "No internet connection available"),
         { st with cb := (st.cb.canRequest now).2,
                   queue := st.queue ++ [⟨retries, now⟩] })
    ∧ specKind (mkNetworkError "No internet connection available") = some .network :=
  ⟨makeRequest_offline ol now outc retries st hgate hconn, by decide⟩

/-- Claim C7, witness: offline browser, fresh breaker. -/
theorem makeRequest_offline_enqueue_witness :
    makeRequest false 0 (fun _ => .response 200 "") 3 st0
      = (.err (mkNetworkError "No internet connection available"),
         ⟨CircuitBreaker.init, [⟨3, 0⟩], none, 0⟩) := by
  have h := (makeRequest_offline_enqueue false 0 (fun _ => .response 200 "")
    3 st0 (by decide) (by decide)).1
  simpa using h

/-- Claim C10: `checkConnection()` returns `false` exactly when
`navigator.onLine` is `false` or the stored `'lastSuccessfulRequest'`
value parses to a timestamp lying 30000 ms or more in the past (absent or
non-parsing values yield `true`); consequently a client with a fresh
breaker whose last successful request is at least 30 s old has its next
`makeRequest` enqueued into the offline queue and failed with the
`Network` error, with no network attempt (fetch count unchanged). -/
theorem checkConnection_spec (ol : Bool) (stored : Option String) (now : Int) :
    (checkConnection ol stored now = false
      ↔ ol = false
        ∨ ∃ s t, stored = some s ∧ jsParseInt s = some t ∧ t ≤ now - 30000)
    ∧ (∀ (s : String) (t : Int) (queue : List QueuedReq) (f : Nat)
        (retries : Nat) (outc : Nat → AttemptOutcome),
        stored = some s → jsParseInt s = some t → 30000 ≤ now - t →
        makeRequest true now outc retries ⟨CircuitBreaker.init, queue, stored, f⟩
          = (.err (mkNetworkError "No internet connection available"),
             ⟨CircuitBreaker.init, queue ++ [⟨retries, now⟩], stored, f⟩)) := by
  constructor
  · cases ol with
    | false => simp [checkConnection]
    | true =>
      cases stored with
      | none => simp [checkConnection]
      | some s =>
        by_cases hs : s = ""
        · subst hs
          rw [show checkConnection true (some "") now = true from rfl]
          simp
          intro t ht
          rw [show jsParseInt "" = none from by decide] at ht
          exact Option.noConfusion ht
        · cases hp : jsParseInt s with
          | none =>
            simp [checkConnection, hs, hp]
          | some t =>
            have hcc : checkConnection true (some s) now
                = if now - 30000 < t then true else false := by
              simp [checkConnection, hs, hp]
            rw [hcc]
            by_cases hlt : now - 30000 < t
            · rw [if_pos hlt]
              constructor
              · intro h
                exact absurd h (by simp)
              · rintro (h | ⟨s2, t2, hs2, hp2, hle⟩)
                · exact absurd h (by simp)
                · exfalso
                  obtain rfl : s2 = s := by
                    injection hs2 with h2
                    exact h2.symm
                  rw [hp] at hp2
                  injection hp2 with h3
                  omega
            · rw [if_neg hlt]
              constructor
              · intro _
                exact .inr ⟨s, t, rfl, hp, by omega⟩
              · intro _
                rfl
  · intro s t queue f retries outc hst hp h30
    subst hst
    have hsne : ¬ s = "" := by
      intro hse
      rw [hse] at hp
      rw [show jsParseInt "" = none from by decide] at hp
      exact Option.noConfusion hp
    have hconn : checkConnection true (some s) now = false := by
      have hcc : checkConnection true (some s) now
          = if now - 30000 < t then true else false := by
        simp [checkConnection, hsne, hp]
      rw [hcc, if_neg (by omega)]
    have h := makeRequest_offline true now outc retries
      ⟨CircuitBreaker.init, queue, some s, f⟩ rfl hconn
    simpa using h

/-- Claim C10, witness: online browser, stored timestamp `'0'`, probed at
time 30000 — exactly 30 s later. -/
theorem checkConnection_spec_witness :
    makeRequest true 30000 (fun _ => .response 200 "") 3
        ⟨CircuitBreaker.init, [], some "0", 0⟩
      = (.err (mkNetworkError "No internet connection available"),
         ⟨CircuitBreaker.init, [⟨3, 30000⟩], some "0", 0⟩) :=
  (checkConnection_spec true (some "0") 30000).2 "0" 0 [] 0 3
    (fun _ => .response 200 "") rfl (by decide) (by decide)

theorem processQueue_all_success :
    ∀ q : List QItem, (∀ i ∈ q, i.online = true ∧ i.outcome = .success) →
      processQueue q = (q, []) := by
  intro q
  induction q with
  | nil => intro _; rfl
  | cons r rest ih =>
    intro h
    have hr := h r (List.mem_cons_self ..)
    have hrest := ih fun i hi => h i (List.mem_cons_of_mem _ hi)
    simp [processQueue, hr.1, hr.2, hrest]

theorem processQueue_take :
    ∀ q : List QItem, (processQueue q).1 = q.take (processQueue q).1.length := by
  intro q
  induction q with
  | nil => rfl
  | cons r rest ih =>
    by_cases ho : r.online = true
    · cases hoc : r.outcome with
      | success =>
        have hpq : processQueue (r :: rest)
            = (r :: (processQueue rest).1, (processQueue rest).2) := by
          simp [processQueue, ho, hoc]
        rw [hpq]
        simp only [List.length_cons, List.take_succ_cons]
        rw [← ih]
      | fail rb =>
        cases rb with
        | true =>
          have hpq : processQueue (r :: rest) = ([r], r :: rest) := by
            simp [processQueue, ho, hoc]
          rw [hpq]
          rfl
        | false =>
          have hpq : processQueue (r :: rest)
              = (r :: (processQueue rest).1, (processQueue rest).2) := by
            simp [processQueue, ho, hoc]
          rw [hpq]
          simp only [List.length_cons, List.take_succ_cons]
          rw [← ih]
    · have hpq : processQueue (r :: rest) = ([], r :: rest) := by
        simp [processQueue, ho]
      rw [hpq]
      rfl

theorem processQueue_removed :
    ∀ (q : List QItem) (i : QItem), i ∈ q → i ∉ (processQueue q).2 →
      i ∈ (processQueue q).1 ∧ (i.outcome = .success ∨ i.outcome = .fail false) := by
  intro q
  induction q with
  | nil =>
    intro i hi _
    simp at hi
  | cons r rest ih =>
    intro i hi hni
    by_cases ho : r.online = true
    · cases hoc : r.outcome with
      | success =>
        have hpq : processQueue (r :: rest)
            = (r :: (processQueue rest).1, (processQueue rest).2) := by
          simp [processQueue, ho, hoc]
        rw [hpq] at hni ⊢
        rcases List.mem_cons.mp hi with rfl | hi2
        · exact ⟨List.mem_cons_self .., .inl hoc⟩
        · have h2 := ih i hi2 hni
          exact ⟨List.mem_cons_of_mem _ h2.1, h2.2⟩
      | fail rb =>
        cases rb with
        | true =>
          have hpq : processQueue (r :: rest) = ([r], r :: rest) := by
            simp [processQueue, ho, hoc]
          rw [hpq] at hni
          exact absurd hi hni
        | false =>
          have hpq : processQueue (r :: rest)
              = (r :: (processQueue rest).1, (processQueue rest).2) := by
            simp [processQueue, ho, hoc]
          rw [hpq] at hni ⊢
          rcases List.mem_cons.mp hi with rfl | hi2
          · exact ⟨List.mem_cons_self .., .inr hoc⟩
          · have h2 := ih i hi2 hni
            exact ⟨List.mem_cons_of_mem _ h2.1, h2.2⟩
    · have hpq : processQueue (r :: rest) = ([], r :: rest) := by
        simp [processQueue, ho]
      rw [hpq] at hni
      exact absurd hi hni

/-- Claim C8: the drain loop of `RequestQueue` is strictly FIFO.  For every
queue: (1) when every item meets connectivity and succeeds, the items
execute exactly in enqueue order and the queue empties; (2) in general the
attempted items are an in-order front segment of the queue; (3) a
retryable failure at the head halts the drain with the item still at the
head; (4) loss of connectivity halts the drain without attempting or
removing the head; (5) an item is removed only after being attempted and
either succeeding or failing non-retryably. -/
theorem requestQueue_fifo_drain (q : List QItem) :
    ((∀ i ∈ q, i.online = true ∧ i.outcome = .success) → processQueue q = (q, []))
    ∧ (processQueue q).1 = q.take (processQueue q).1.length
    ∧ (∀ r rest, q = r :: rest → r.online = true → r.outcome = .fail true →
        processQueue q = ([r], q))
    ∧ (∀ r rest, q = r :: rest → r.online = false → processQueue q = ([], q))
    ∧ (∀ i, i ∈ q → i ∉ (processQueue q).2 →
        i ∈ (processQueue q).1 ∧ (i.outcome = .success ∨ i.outcome = .fail false)) := by
  refine ⟨processQueue_all_success q, processQueue_take q, ?_, ?_, processQueue_removed q⟩
  · intro r rest hq ho hoc
    subst hq
    simp [processQueue, ho, hoc]
  · intro r rest hq ho
    subst hq
    simp [processQueue, ho]

/-- Claim C8, witness: three items A, B, C enqueued while offline, all
succeeding once connectivity returns, execute in order A, B, C. -/
theorem requestQueue_fifo_drain_witness :
    processQueue [⟨0, true, .success⟩, ⟨1, true, .success⟩, ⟨2, true, .success⟩]
      = ([⟨0, true, .success⟩, ⟨1, true, .success⟩, ⟨2, true, .success⟩], []) :=
  (requestQueue_fifo_drain _).1 (by decide)

/-- Claim C4 (amended): `disconnect()` sets `isConnected` to `false`,
clears both subscriber registries, and closes the socket, but sets no
"deliberately closed" flag: the socket's subsequent close event is handled
by the ordinary close handler, which notifies the (now empty) status
registry and schedules a reconnection whenever the attempt counter is
below `maxReconnectAttempts`. -/
theorem disconnect_behavior (s : WSState) :
    (wsStep s .disconnectE).1.messageCallbacks = []
    ∧ (wsStep s .disconnectE).1.statusCallbacks = []
    ∧ (wsStep s .disconnectE).1.isConnected = false
    ∧ (wsStep s .disconnectE).1.socketAlive = s.socketAlive
    ∧ (s.socketAlive = true →
        s.reconnectAttempts < s.maxReconnectAttempts →
        (wsStep (wsStep s .disconnectE).1 .closeE).2
          = [.statusNotify false [],
             .scheduleReconnect (s.baseReconnectDelay * 2 ^ s.reconnectAttempts)]) := by
  refine ⟨rfl, rfl, rfl, rfl, fun ha hlt => ?_⟩
  simp [wsStep, handleReconnection, ha, hlt]

/-- Claim C4, counterexample to the claim as stated: on a connected
service with attempt counter 0, `disconnect()` followed by the resulting
close event schedules a reconnection — nothing suppresses it. -/
theorem disconnect_reconnect_cex :
    (wsStep (wsStep wsConnected .disconnectE).1 .closeE).2
      = [.statusNotify false [], .scheduleReconnect 1000]
    ∧ countSched (wsStep (wsStep wsConnected .disconnectE).1 .closeE).2 = 1 := by
  decide

/-- Claim C4, witness. -/
theorem disconnect_behavior_witness :
    (wsStep (wsStep wsConnected .disconnectE).1 .closeE).2
      = [.statusNotify false [], .scheduleReconnect 1000] :=
  (disconnect_behavior wsConnected).2.2.2.2 rfl (by decide)

theorem countSched_append (a b : List WSOutput) :
    countSched (a ++ b) = countSched a + countSched b := by
  induction a with
  | nil => simp [countSched]
  | cons x xs ih =>
    cases x <;> simp [countSched, ih] <;> omega

theorem wsStep_inv (s : WSState) (e : WSEvent) (h : wsInv s) :
    wsInv (wsStep s e).1 := by
  obtain ⟨h1, h2, h3⟩ := h
  unfold wsInv
  cases e <;> simp only [wsStep, handleReconnection] <;> repeat' split
  all_goals try simp_all
  all_goals try omega

theorem wsStep_sched (s : WSState) (e : WSEvent) (h : wsInv s)
    (he : e ≠ .openE) :
    countSched (wsStep s e).2 + fMeasure s = fMeasure (wsStep s e).1
    ∧ (wsStep s e).1.maxReconnectAttempts = s.maxReconnectAttempts := by
  obtain ⟨h1, h2, h3⟩ := h
  cases e with
  | openE => exact absurd rfl he
  | closeE =>
    simp only [wsStep, handleReconnection]
    repeat' split
    all_goals simp_all [fMeasure, countSched]
    all_goals omega
  | errorE =>
    simp only [wsStep]
    repeat' split
    all_goals simp_all [fMeasure, countSched]
  | fireE =>
    simp only [wsStep]
    repeat' split
    all_goals simp_all [fMeasure, countSched]
    all_goals omega
  | disconnectE =>
    simp only [wsStep]
    repeat' split
    all_goals simp_all [fMeasure, countSched]

theorem wsRun_sched (evts : List WSEvent) :
    ∀ s : WSState, wsInv s → WSEvent.openE ∉ evts →
      countSched (wsRun s evts).2 + fMeasure s = fMeasure (wsRun s evts).1
      ∧ wsInv (wsRun s evts).1
      ∧ (wsRun s evts).1.maxReconnectAttempts = s.maxReconnectAttempts := by
  induction evts with
  | nil =>
    intro s hinv _
    exact ⟨by simp [wsRun, countSched], hinv, rfl⟩
  | cons e es ih =>
    intro s hinv hno
    have he : e ≠ .openE := by
      intro hcon
      exact hno (by rw [hcon]; exact List.mem_cons_self ..)
    have hes : WSEvent.openE ∉ es := fun hmem => hno (List.mem_cons_of_mem _ hmem)
    have hstep := wsStep_sched s e hinv he
    have hinv2 := wsStep_inv s e hinv
    have hrest := ih (wsStep s e).1 hinv2 hes
    refine ⟨?_, ?_, ?_⟩
    · show countSched ((wsStep s e).2 ++ (wsRun (wsStep s e).1 es).2) + fMeasure s
        = fMeasure (wsRun (wsStep s e).1 es).1
      rw [countSched_append]
      omega
    · exact hrest.2.1
    · exact hrest.2.2.trans hstep.2

/-- Claim C9 (amended): on a close event of a live socket the service
transitions to disconnected, notifies all status subscribers with `false`,
and schedules a reconnection with delay
`baseReconnectDelay * 2^reconnectAttempts` — the counter incrementing only
when the scheduled timer fires — unless the counter has reached
`maxReconnectAttempts`, in which case nothing is scheduled and a second
`false` notification is emitted; an error event, however, only notifies
status subscribers with `false`: it neither transitions to disconnected
nor schedules a reconnection.  Along any event sequence containing no open
event, starting from a state satisfying the reconnection invariant, at
most `maxReconnectAttempts` reconnections are ever scheduled. -/
theorem ws_close_error_behavior (s : WSState) :
    (s.socketAlive = true → s.reconnectAttempts < s.maxReconnectAttempts →
      wsStep s .closeE
        = ({ s with isConnected := false, socketAlive := false,
                    pendingReconnect := true },
           [.statusNotify false s.statusCallbacks,
            .scheduleReconnect (s.baseReconnectDelay * 2 ^ s.reconnectAttempts)]))
    ∧ (s.socketAlive = true → s.maxReconnectAttempts ≤ s.reconnectAttempts →
      wsStep s .closeE
        = ({ s with isConnected := false, socketAlive := false },
           [.statusNotify false s.statusCallbacks,
            .statusNotify false s.statusCallbacks]))
    ∧ (s.socketAlive = true →
      wsStep s .errorE = (s, [.statusNotify false s.statusCallbacks]))
    ∧ ((wsStep s .fireE).1.reconnectAttempts
        = if s.pendingReconnect then s.reconnectAttempts + 1
          else s.reconnectAttempts)
    ∧ (∀ evts : List WSEvent, WSEvent.openE ∉ evts → wsInv s →
        countSched (wsRun s evts).2 ≤ s.maxReconnectAttempts) := by
  refine ⟨fun ha hlt => ?_, fun ha hge => ?_, fun ha => ?_, ?_, ?_⟩
  · simp [wsStep, handleReconnection, ha, hlt]
  · simp [wsStep, handleReconnection, ha, Nat.not_lt.mpr hge]
  · simp [wsStep, ha]
  · by_cases hp : s.pendingReconnect = true
    · simp [wsStep, hp]
    · simp [wsStep, hp]
  · intro evts hno hinv
    have h := wsRun_sched evts s hinv hno
    have hbound : fMeasure (wsRun s evts).1 ≤ s.maxReconnectAttempts := by
      obtain ⟨hle, hpend, _⟩ := h.2.1
      rw [h.2.2] at hle hpend
      unfold fMeasure
      by_cases hp : (wsRun s evts).1.pendingReconnect = true
      · have := hpend hp
        simp [hp]
        omega
      · simp at hp
        simp [hp]
        exact hle
    have h1 := h.1
    unfold fMeasure at h1
    omega

/-- Claim C9, counterexample to the claim as stated: an error event on a
connected service with attempt counter 0 (below the maximum 5) leaves
`isConnected` `true` — no transition to disconnected — and schedules no
reconnection. -/
theorem ws_error_event_cex :
    (wsStep wsConnected .errorE).1.isConnected = true
    ∧ countSched (wsStep wsConnected .errorE).2 = 0
    ∧ wsConnected.reconnectAttempts < wsConnected.maxReconnectAttempts := by
  decide

/-- Claim C9, witness. -/
theorem ws_close_error_behavior_witness :
    wsStep wsConnected .errorE = (wsConnected, [.statusNotify false [2]]) :=
  (ws_close_error_behavior wsConnected).2.2.1 rfl
